import Mathlib

/-! Verification development for the protocol correlation and framing layer of
the uarm-sdk-javascript repository.

The definitions below are a shallow embedding of:
- `src/uarm/sdk.js`, class `uArmSDK`: the `sendGCode` method and the
  `incoming` inbound-line handler;
- `src/uarm/errors.js`: the static error table;
- the serial communication module, class `SerialCommunication`: the
  readiness-gated line handler installed in its constructor and its `send`.

Modelling conventions:
- The JavaScript object `waitingResponses` (used as a dictionary) is modelled
  as an association list keyed by strings, since JS property keys are strings.
  A key that is absent and a key whose value has been set to `null` are both
  observed by the code only through falsiness (`!waiter`) and through a
  `waiter.callback` access that throws a TypeError on either, so both are
  collapsed to `none`.
- Callback invocations, `console` output and `onError` notifications are
  modelled as an explicit event list, in program order.
- A thrown JS exception is modelled in the `Outcome` of a handler run; the
  code performs no table mutation after a throw, which the model reflects.
- The `LOG_LEVEL > 10` debug logging in `sdk.js` is omitted: it is pure
  console output guarded by a constant and affects no state, no
  classification and no callback. -/

/-- Modelled from the spec: the file `src/uarm/constants.js` is required by
`sdk.js` but is missing from the sources. The spec fixes the reply marker:
scenario "send `P2220` as id 1 → device replies `refer:1 ok ...`".
Source constant name: MESSAGE_GCODE_RECEIVE_PREFIX. -/
def replyMark : String := "refer:"

/-- Modelled from the spec: error marker, spec scenario "device replies
`E7 21`". Source constant name: MESSAGE_ERROR_PREFIX. -/
def errorMark : String := "E"

/-- Modelled from the spec: the status-tick marker, the remaining named
alternative of the marker grammar `refer:|E|$|@` of `incoming`; the readiness
sentinel is a fixed status-marker line (spec section 6), built in the
`uArmSDK` constructor as `MESSAGE_TICKING_FEEDBACK_PREFIX + TICKING_UARM_READY`.
Source constant name: MESSAGE_TICKING_FEEDBACK_PREFIX. -/
def statusMark : String := "@"

/-- Modelled from the spec: the outbound frame prefix of
`<SEND_PREFIX><id><space><commandText>` (spec section 6).
Source constant name: MESSAGE_GCODE_SEND_PREFIX. -/
def sendMark : String := "#"

/-- One entry of the error table of `src/uarm/errors.js`:
`code → { code: symbolic kind, message: human text }`. -/
structure ErrorEntry where
  code : String
  message : String
deriving DecidableEq

/-- The error table of `src/uarm/errors.js`, looked up by JS property key
(a string), exactly as `ERRORS[key]` does: keys "20" .. "25" are present,
every other key (including keys with leading zeros) yields `undefined`. -/
def ERRORS (key : String) : Option ErrorEntry :=
  if key = "20" then some { code := "COMMAND_NOT_EXIST", message := "Command not exist." }
  else if key = "21" then some { code := "PARAMETER", message := "Parameter error." }
  else if key = "22" then some { code := "ADDRESS_OUT_OF_RANGE", message := "The address is out of range." }
  else if key = "23" then some { code := "COMMAND_BUFFER_FULL", message := "Command buffer is full." }
  else if key = "24" then some { code := "POWER_DISCONNECTED", message := "UArm lost power." }
  else if key = "25" then some { code := "OPERATION_FAILURE", message := "Operation failed." }
  else none

/-- Whitespace in the sense of the JS regex class `\s` (the characters
relevant to single protocol lines). -/
def isJsSpace (c : Char) : Bool :=
  c = ' ' || c = '\t' || c = '\n' || c = '\r' || c = '\x0b' || c = '\x0c'

/-- List-of-characters prerequisite check: `startsWithChars p cs` holds when
`p` occurs at the start of `cs`. -/
def startsWithChars : List Char → List Char → Bool
  | [], _ => true
  | _ :: _, [] => false
  | p :: ps, c :: cs => p = c && startsWithChars ps cs

/-- Split off the maximal leading run of decimal digits. -/
def takeDigits : List Char → List Char × List Char
  | [] => ([], [])
  | c :: cs =>
      if c.isDigit then
        ((c :: (takeDigits cs).1), (takeDigits cs).2)
      else ([], c :: cs)

/-- Drop the maximal leading run of JS whitespace. -/
def dropJsSpaces : List Char → List Char
  | [] => []
  | c :: cs => if isJsSpace c then dropJsSpaces cs else c :: cs

/-- Result of `/^(refer:|E|\$|@)(\d+)*\s+(.+)*/.exec(data)` in `incoming`:
capture 1 (the marker), capture 2 (the message id digits, `undefined` when the
starred digit group matched zero times) and capture 3 (the payload after the
whitespace run, `undefined` when empty). -/
structure RegexMatch where
  messageType : String
  messageId : Option String
  rest : Option String
deriving DecidableEq

/-- The ordered marker alternation `refer:|E|$|@` of the `incoming` regex:
returns the matched marker and the remaining characters. The alternatives
have pairwise distinct first characters, so the ordered attempt is exact. -/
def matchMarker (cs : List Char) : Option (String × List Char) :=
  if startsWithChars "refer:".toList cs then some ("refer:", cs.drop 6)
  else
    match cs with
    | 'E' :: rest => some ("E", rest)
    | '$' :: rest => some ("$", rest)
    | '@' :: rest => some ("@", rest)
    | _ => none

/-- The anchored regex of `incoming`: marker, then an optional maximal digit
run, then at least one whitespace character (the mandatory `\s+`), then the
rest of the line as payload. Backtracking over `(\d+)*` can place the
mandatory whitespace only directly after the full digit run (every proper
split leaves a digit where `\s+` must match), so the maximal-run reading is
exactly the regex semantics. -/
def execIncoming (data : String) : Option RegexMatch :=
  match matchMarker data.toList with
  | none => none
  | some pm =>
      match takeDigits pm.2 with
      | (ds, c :: cs2) =>
          if isJsSpace c then
            some { messageType := pm.1
                   messageId := if ds = [] then none else some (String.mk ds)
                   rest :=
                     if dropJsSpaces cs2 = [] then none
                     else some (String.mk (dropJsSpaces cs2)) }
          else none
      | (_, []) => none

/-- JS template-string interpolation of a possibly-undefined capture. -/
def undefStr (o : Option String) : String := o.getD "undefined"

/-- The value handed to a JS `new Error(x)` construction in the handler:
either a string message, the error-table entry object, or `undefined`. -/
inductive JsErr where
  | ofStr (s : String)
  | ofEntry (e : ErrorEntry)
  | ofUndefined
deriving DecidableEq

/-- Argument of a pending-request callback invocation:
`callback(error)` or `callback(null, rest)`. -/
inductive CbArg where
  | failure (e : JsErr)
  | success (rest : Option String)
deriving DecidableEq

/-- Observable events of a run of the sdk layer, in program order. -/
inductive Event where
  | callbackInvoked (id : String) (arg : CbArg)
  | onErrorCalled (e : JsErr)
  | logged (s : String)
  | errLogged (s : String)
deriving DecidableEq

/-- A JS exception escaping the handler: either the TypeError raised by
accessing `.callback` on an undefined (or nulled) waiter, or an explicit
`throw new Error(...)`. -/
inductive Thrown where
  | typeError
  | jsError (e : JsErr)
deriving DecidableEq

/-- Whether the handler returned normally or threw. -/
inductive Outcome where
  | ok
  | thrown (t : Thrown)
deriving DecidableEq

/-- One entry of `waitingResponses`: `{ timestamp, callback, command }`. The
callback itself is identified by its key in the table; its invocations are
recorded as `Event.callbackInvoked`. -/
structure Waiter where
  timestamp : Nat
  command : String
deriving DecidableEq

/-- The pending table `waitingResponses`, keyed by JS property key strings.
`none` covers both an absent key and a key nulled after settlement. -/
abbrev WaitTable := List (String × Option Waiter)

/-- Property lookup `tbl[k]`. -/
def tblGet : WaitTable → String → Option Waiter
  | [], _ => none
  | (k2, v) :: rest, k => if k2 = k then v else tblGet rest k

/-- Property assignment `tbl[k] = v` (overwrites in place, appends when
absent). -/
def tblSet : WaitTable → String → Option Waiter → WaitTable
  | [], k, v => [(k, v)]
  | (k2, v2) :: rest, k, v =>
      if k2 = k then (k2, v) :: rest else (k2, v2) :: tblSet rest k v

/-- Result of one run of the `incoming` handler on one inbound line. -/
structure IncomingResult where
  table : WaitTable
  events : List Event
  outcome : Outcome
deriving DecidableEq

/-- The error value built in the `MESSAGE_ERROR_PREFIX` case of `incoming`:
`errorHandler ? new Error(errorHandler)
             : new Error('Unknown error [E' + messageId + ']: ' + rest)`.
Note the table is keyed by `messageId`, exactly as the source writes
`ERRORS[messageId]`. -/
def classifyError (idKey restStr : String) : JsErr :=
  match ERRORS idKey with
  | some eh => .ofEntry eh
  | none => .ofStr ("Unknown error [" ++ errorMark ++ idKey ++ "]: " ++ restStr)

/-- The argument of the unconditional `this.onError(new Error(errorHandler))`
call in the error case: the entry when the lookup hit, `undefined` otherwise. -/
def onErrorValue (idKey : String) : JsErr :=
  match ERRORS idKey with
  | some eh => .ofEntry eh
  | none => .ofUndefined

/-- The switch body of `incoming` over the destructured match: the status
case logs; the error case reads the waiter and the table entry, invokes
`waiter.callback(error)` (a TypeError when no waiter) and then `onError`;
the reply case throws on a missing waiter and otherwise invokes
`waiter.callback(null, rest)` and nulls the entry; the default case throws. -/
def classifyLine (tbl : WaitTable) (m : RegexMatch) : IncomingResult :=
  if m.messageType = statusMark then
    { table := tbl
      events := [.logged ("UARM REPORTED:  " ++ undefStr m.messageId ++ " " ++ undefStr m.rest)]
      outcome := .ok }
  else if m.messageType = errorMark then
    match tblGet tbl (undefStr m.messageId) with
    | none => { table := tbl, events := [], outcome := .thrown .typeError }
    | some _ =>
        { table := tbl
          events := [.callbackInvoked (undefStr m.messageId)
                       (.failure (classifyError (undefStr m.messageId) (undefStr m.rest))),
                     .onErrorCalled (onErrorValue (undefStr m.messageId))]
          outcome := .ok }
  else if m.messageType = replyMark then
    match tblGet tbl (undefStr m.messageId) with
    | none =>
        { table := tbl
          events := []
          outcome :=
            .thrown (.jsError (.ofStr ("Unable to find message id: " ++ undefStr m.messageId))) }
    | some _ =>
        { table := tblSet tbl (undefStr m.messageId) none
          events := [.callbackInvoked (undefStr m.messageId) (.success m.rest)]
          outcome := .ok }
  else
    { table := tbl
      events := []
      outcome := .thrown (.jsError (.ofStr ("Unknown messages type: " ++ m.messageType))) }

/-- The `incoming` handler of `uArmSDK`: runs the regex, logs a console
error on a non-matching line, otherwise dispatches on the marker. -/
def incoming (tbl : WaitTable) (data : String) : IncomingResult :=
  match execIncoming data with
  | none =>
      { table := tbl
        events := [.errLogged ("Got message NOT matching Regexp: " ++ data)]
        outcome := .ok }
  | some m => classifyLine tbl m

/-- The mutable state of one `uArmSDK` instance together with its
`SerialCommunication`: the id counter (`this.messageId`), the pending table
(`this.waitingResponses`), the readiness flag (`serialPort.initialized`) and
the lines written to the physical port. -/
structure UArmState where
  messageId : Nat
  waitingResponses : WaitTable
  initialized : Bool
  written : List String
deriving DecidableEq

/-- The state right after the `uArmSDK` constructor: `messageId = 1`, empty
pending table, transport not yet initialized, nothing written. -/
def initialUArmState : UArmState :=
  { messageId := 1, waitingResponses := [], initialized := false, written := [] }

/-- `uArmSDK.sendGCode` composed with `SerialCommunication.send`: allocates
`newMsgId = messageId++`, registers the waiter under the stringified id,
frames `<sendMark><id> <GCode>` and hands it to `send`, which appends the
line (plus a newline) to the port when initialized and otherwise logs
`send(): Not connected` and returns without writing. Besides the new state
the model also exposes the allocated id (the registration key) and the
events of the call. -/
def sendGCode (st : UArmState) (gcode : String) (nowMs : Nat) :
    UArmState × Nat × List Event :=
  if st.initialized = false then
    ({ messageId := st.messageId + 1
       waitingResponses :=
         tblSet st.waitingResponses (Nat.repr st.messageId)
           (some { timestamp := nowMs, command := gcode })
       initialized := st.initialized
       written := st.written },
     st.messageId, [.logged "send(): Not connected 😔"])
  else
    ({ messageId := st.messageId + 1
       waitingResponses :=
         tblSet st.waitingResponses (Nat.repr st.messageId)
           (some { timestamp := nowMs, command := gcode })
       initialized := st.initialized
       written :=
         st.written ++ [sendMark ++ Nat.repr st.messageId ++ " " ++ gcode ++ "\n"] },
     st.messageId, [])

/-- Observable events of the `SerialCommunication` line handler. -/
inductive SerialEvent where
  | logged (s : String)
  | emittedReady
  | emittedData (line : String)
deriving DecidableEq

/-- The line handler installed in the `SerialCommunication` constructor: a
line equal to `readyCode` sets `initialized`, logs and emits `ready`
(and returns); otherwise a line before initialization is logged as boot
banner info (and dropped); otherwise the line is emitted as `data`. -/
def serialLineHandler (readyCode : String) (initialized : Bool) (line : String) :
    Bool × List SerialEvent :=
  if line = readyCode then
    (true, [.logged "✅  UArm is READY.", .emittedReady])
  else if initialized = false then
    (initialized, [.logged ("ℹ️  " ++ line)])
  else
    (initialized, [.emittedData line])

/-- The lines forwarded as `data` events among the handler's events. -/
def dataLines : List SerialEvent → List String
  | [] => []
  | .emittedData d :: es => d :: dataLines es
  | _ :: es => dataLines es

/-- One raw line arriving from the transport, processed end to end: first by
the `SerialCommunication` handler, then — for each `data` event it emitted —
by the `uArmSDK.incoming` subscriber installed in the constructor
(`this.serialPort.events.on('data', ...)`). The handler emits at most one
`data` event per line. -/
def processRawLine (readyCode : String) (st : UArmState) (line : String) :
    UArmState × List SerialEvent × List Event × Outcome :=
  match dataLines (serialLineHandler readyCode st.initialized line).2 with
  | [] =>
      ({ st with initialized := (serialLineHandler readyCode st.initialized line).1 },
       (serialLineHandler readyCode st.initialized line).2, [], .ok)
  | d :: _ =>
      ({ st with
         initialized := (serialLineHandler readyCode st.initialized line).1
         waitingResponses := (incoming st.waitingResponses d).table },
       (serialLineHandler readyCode st.initialized line).2,
       (incoming st.waitingResponses d).events,
       (incoming st.waitingResponses d).outcome)

/-- One step of a link's lifetime: a `sendGCode` call or a raw inbound line. -/
inductive LinkOp where
  | sendOp (gcode : String) (nowMs : Nat)
  | lineOp (line : String)

/-- Run a sequence of link operations, collecting the message ids allocated
by the send calls, in order. -/
def runOps (readyCode : String) (st : UArmState) : List LinkOp → UArmState × List Nat
  | [] => (st, [])
  | .sendOp g ts :: rest =>
      ((runOps readyCode (sendGCode st g ts).1 rest).1,
       (sendGCode st g ts).2.1 :: (runOps readyCode (sendGCode st g ts).1 rest).2)
  | .lineOp line :: rest => runOps readyCode (processRawLine readyCode st line).1 rest

/-- Number of send operations in a step sequence. -/
def countSends : List LinkOp → Nat
  | [] => 0
  | .sendOp _ _ :: rest => countSends rest + 1
  | .lineOp _ :: rest => countSends rest

/-- The list `s, s + 1, ..., s + n - 1`. -/
def seqFrom (s : Nat) : Nat → List Nat
  | 0 => []
  | n + 1 => s :: seqFrom (s + 1) n

/-- An event that delivers a failure to an observer: a callback invoked with
an error argument, or an `onError` notification. -/
def isFailureEvent : Event → Bool
  | .callbackInvoked _ (.failure _) => true
  | .onErrorCalled _ => true
  | _ => false

/-- An event that settles some pending request (any callback invocation). -/
def isSettlement : Event → Bool
  | .callbackInvoked _ _ => true
  | _ => false


/-- Concrete pending table for the out-of-order settlement scenario:
two unanswered sends with ids 1 and 2. -/
def tblC6 : WaitTable :=
  [("1", some { timestamp := 0, command := "P2220" }),
   ("2", some { timestamp := 1, command := "P2200" })]

theorem tblGet_tblSet_self (t : WaitTable) (k : String) (v : Option Waiter) :
    tblGet (tblSet t k v) k = v := by
  induction t with
  | nil => simp [tblSet, tblGet]
  | cons p rest ih =>
      obtain ⟨k2, v2⟩ := p
      by_cases h : k2 = k
      · simp [tblSet, tblGet, h]
      · simp [tblSet, tblGet, h, ih]

theorem tblGet_tblSet_ne (t : WaitTable) (k k2 : String) (v : Option Waiter)
    (h : k2 ≠ k) : tblGet (tblSet t k v) k2 = tblGet t k2 := by
  induction t with
  | nil => simp [tblSet, tblGet, Ne.symm h]
  | cons p rest ih =>
      obtain ⟨k3, v3⟩ := p
      by_cases h3 : k3 = k
      · subst h3
        simp [tblSet, tblGet, Ne.symm h]
      · simp [tblSet, tblGet, h3, ih]

theorem incoming_eq_classify (tbl : WaitTable) (data : String) (m : RegexMatch)
    (h : execIncoming data = some m) : incoming tbl data = classifyLine tbl m := by
  unfold incoming
  rw [h]

theorem classify_reply_none (tbl : WaitTable) (m : RegexMatch)
    (hT : m.messageType = replyMark)
    (hW : tblGet tbl (undefStr m.messageId) = none) :
    classifyLine tbl m =
      { table := tbl, events := [],
        outcome := .thrown (.jsError (.ofStr
          ("Unable to find message id: " ++ undefStr m.messageId))) } := by
  unfold classifyLine
  rw [hT, hW, if_neg (by decide), if_neg (by decide), if_pos rfl]

theorem classify_reply_some (tbl : WaitTable) (m : RegexMatch) (w : Waiter)
    (hT : m.messageType = replyMark)
    (hW : tblGet tbl (undefStr m.messageId) = some w) :
    classifyLine tbl m =
      { table := tblSet tbl (undefStr m.messageId) none
        events := [.callbackInvoked (undefStr m.messageId) (.success m.rest)]
        outcome := .ok } := by
  unfold classifyLine
  rw [hT, hW, if_neg (by decide), if_neg (by decide), if_pos rfl]

theorem classify_error_some (tbl : WaitTable) (m : RegexMatch) (w : Waiter)
    (hT : m.messageType = errorMark)
    (hW : tblGet tbl (undefStr m.messageId) = some w) :
    classifyLine tbl m =
      { table := tbl
        events := [.callbackInvoked (undefStr m.messageId)
                     (.failure (classifyError (undefStr m.messageId) (undefStr m.rest))),
                   .onErrorCalled (onErrorValue (undefStr m.messageId))]
        outcome := .ok } := by
  unfold classifyLine
  rw [hT, hW, if_neg (by decide), if_pos rfl]

theorem sendGCode_messageId (st : UArmState) (g : String) (ts : Nat) :
    (sendGCode st g ts).1.messageId = st.messageId + 1 := by
  unfold sendGCode
  split <;> rfl

theorem sendGCode_allocated (st : UArmState) (g : String) (ts : Nat) :
    (sendGCode st g ts).2.1 = st.messageId := by
  unfold sendGCode
  split <;> rfl

theorem processRawLine_messageId (rc : String) (st : UArmState) (line : String) :
    (processRawLine rc st line).1.messageId = st.messageId := by
  unfold processRawLine
  split <;> rfl

theorem runOps_ids (ops : List LinkOp) :
    ∀ (rc : String) (st : UArmState),
      (runOps rc st ops).2 = seqFrom st.messageId (countSends ops) := by
  induction ops with
  | nil => intro rc st; rfl
  | cons op rest ih =>
      intro rc st
      cases op with
      | sendOp g ts =>
          show (sendGCode st g ts).2.1 :: (runOps rc (sendGCode st g ts).1 rest).2 =
            seqFrom st.messageId (countSends rest + 1)
          rw [ih rc (sendGCode st g ts).1, sendGCode_allocated, sendGCode_messageId]
          rfl
      | lineOp line =>
          show (runOps rc (processRawLine rc st line).1 rest).2 =
            seqFrom st.messageId (countSends rest)
          rw [ih rc (processRawLine rc st line).1, processRawLine_messageId]

/-- C1: code-bug evaluation at the failing input. With PendingRequest 7
pending and the inbound error line "E7 21" (payload code 21 is PARAMETER in
the error table), the handler settles PendingRequest 7 with the fallback
`Error("Unknown error [E7]: 21")` — because `incoming` looks the error table
up by the message id (`ERRORS[messageId]`, here 7) instead of by the payload
code 21 — and notifies `onError` with `new Error(undefined)`; the claim
requires settlement with the PARAMETER table entry's kind and message. -/
theorem incoming_E7_21_settles_pending7_with_fallback :
    incoming [("7", some { timestamp := 0, command := "G0 X1 Y1 Z1 F1000" })] "E7 21" =
      { table := [("7", some { timestamp := 0, command := "G0 X1 Y1 Z1 F1000" })]
        events := [.callbackInvoked "7" (.failure (.ofStr "Unknown error [E7]: 21")),
                   .onErrorCalled .ofUndefined]
        outcome := .ok } ∧
    ERRORS "21" = some { code := "PARAMETER", message := "Parameter error." } ∧
    ERRORS "7" = none := by decide

/-- C2: counterexample. The device emits "refer:99 ok" while no
PendingRequest 99 exists: `incoming` throws
`Error("Unable to find message id: 99")` out of the inbound-processing path
instead of a recoverable ProtocolViolation classification, refuting the claim
as stated. -/
theorem incoming_unmatched_reply_throws_concrete :
    incoming [] "refer:99 ok" =
      { table := [], events := [],
        outcome := .thrown (.jsError (.ofStr "Unable to find message id: 99")) } ∧
    (incoming [] "refer:99 ok").outcome ≠ .ok := by decide

/-- C2 (amended): for every inbound reply-marker line whose id has no entry
in the pending table, `incoming` throws
`Error("Unable to find message id: <id>")` out of the inbound-processing
path; no callback is invoked and the pending table is left unchanged
(uncorrupted). -/
theorem incoming_unmatched_reply_throws (tbl : WaitTable) (data : String)
    (m : RegexMatch) (h : execIncoming data = some m)
    (hT : m.messageType = replyMark)
    (hW : tblGet tbl (undefStr m.messageId) = none) :
    incoming tbl data =
      { table := tbl, events := [],
        outcome := .thrown (.jsError (.ofStr
          ("Unable to find message id: " ++ undefStr m.messageId))) } := by
  rw [incoming_eq_classify tbl data m h]
  exact classify_reply_none tbl m hT hW

/-- C2 (witness): the amended claim applied at the spec scenario input. -/
theorem incoming_unmatched_reply_throws_witness :
    incoming [] "refer:99 ok" =
      { table := [], events := [],
        outcome := .thrown (.jsError (.ofStr
          ("Unable to find message id: " ++ undefStr (some "99")))) } :=
  incoming_unmatched_reply_throws [] "refer:99 ok"
    { messageType := "refer:", messageId := some "99", rest := some "ok" }
    (by decide) rfl rfl

/-- C3: counterexample. With PendingRequest 7 pending, the error line
"E7 21" settles it (its callback is invoked), yet its entry remains in the
pending table — the error case of `incoming` performs no removal — and a
subsequent "refer:7 ok" settles the same PendingRequest a second time. -/
theorem error_settlement_leaves_entry_concrete :
    incoming [("7", some { timestamp := 0, command := "G0" })] "E7 21" =
      { table := [("7", some { timestamp := 0, command := "G0" })]
        events := [.callbackInvoked "7" (.failure (.ofStr "Unknown error [E7]: 21")),
                   .onErrorCalled .ofUndefined]
        outcome := .ok } ∧
    tblGet [("7", some { timestamp := 0, command := "G0" })] "7" =
      some { timestamp := 0, command := "G0" } ∧
    incoming [("7", some { timestamp := 0, command := "G0" })] "refer:7 ok" =
      { table := [("7", none)]
        events := [.callbackInvoked "7" (.success (some "ok"))]
        outcome := .ok } := by decide

/-- C3 (amended): settlement by a reply-marker line invokes the completion
callback exactly once and nulls the entry at the moment of settlement, so a
second arrival of the same id throws instead of settling again; settlement
by an error-marker line invokes the callback but leaves the entry in the
pending table, so a later inbound line carrying the same id can settle that
PendingRequest a second time. -/
theorem settlement_removal_reply_only :
    (∀ (tbl : WaitTable) (data : String) (m : RegexMatch) (w : Waiter),
      execIncoming data = some m → m.messageType = replyMark →
      tblGet tbl (undefStr m.messageId) = some w →
      (incoming tbl data).events =
        [.callbackInvoked (undefStr m.messageId) (.success m.rest)] ∧
      tblGet (incoming tbl data).table (undefStr m.messageId) = none ∧
      (incoming (incoming tbl data).table data).events = [] ∧
      (incoming (incoming tbl data).table data).outcome =
        .thrown (.jsError (.ofStr
          ("Unable to find message id: " ++ undefStr m.messageId)))) ∧
    (∀ (tbl : WaitTable) (data : String) (m : RegexMatch) (w : Waiter),
      execIncoming data = some m → m.messageType = errorMark →
      tblGet tbl (undefStr m.messageId) = some w →
      (incoming tbl data).table = tbl ∧
      tblGet (incoming tbl data).table (undefStr m.messageId) = some w) := by
  constructor
  · intro tbl data m w h hT hW
    have h1 : incoming tbl data =
        { table := tblSet tbl (undefStr m.messageId) none
          events := [.callbackInvoked (undefStr m.messageId) (.success m.rest)]
          outcome := .ok } := by
      rw [incoming_eq_classify tbl data m h]
      exact classify_reply_some tbl m w hT hW
    have h2 : incoming (tblSet tbl (undefStr m.messageId) none) data =
        { table := tblSet tbl (undefStr m.messageId) none, events := [],
          outcome := .thrown (.jsError (.ofStr
            ("Unable to find message id: " ++ undefStr m.messageId))) } := by
      rw [incoming_eq_classify _ data m h]
      exact classify_reply_none _ m hT (tblGet_tblSet_self _ _ _)
    rw [h1]
    refine ⟨rfl, tblGet_tblSet_self _ _ _, ?_, ?_⟩
    · show (incoming (tblSet tbl (undefStr m.messageId) none) data).events = []
      rw [h2]
    · show (incoming (tblSet tbl (undefStr m.messageId) none) data).outcome = _
      rw [h2]
  · intro tbl data m w h hT hW
    rw [incoming_eq_classify tbl data m h, classify_error_some tbl m w hT hW]
    exact ⟨rfl, hW⟩

/-- C3 (witness): the amended claim applied at concrete inputs: the reply
line "refer:3 ok" settles and removes pending 3 and a repeat of the line
throws; the error line "E4 20" settles pending 4 but leaves its entry. -/
theorem settlement_removal_reply_only_witness :
    ((incoming [("3", some { timestamp := 2, command := "P2200" })] "refer:3 ok").events =
        [.callbackInvoked "3" (.success (some "ok"))] ∧
      tblGet (incoming [("3", some { timestamp := 2, command := "P2200" })]
        "refer:3 ok").table "3" = none ∧
      (incoming (incoming [("3", some { timestamp := 2, command := "P2200" })]
        "refer:3 ok").table "refer:3 ok").events = [] ∧
      (incoming (incoming [("3", some { timestamp := 2, command := "P2200" })]
        "refer:3 ok").table "refer:3 ok").outcome =
        .thrown (.jsError (.ofStr ("Unable to find message id: " ++ undefStr (some "3"))))) ∧
    ((incoming [("4", some { timestamp := 1, command := "G1" })] "E4 20").table =
        [("4", some { timestamp := 1, command := "G1" })] ∧
      tblGet (incoming [("4", some { timestamp := 1, command := "G1" })]
        "E4 20").table "4" = some { timestamp := 1, command := "G1" }) :=
  ⟨settlement_removal_reply_only.1
      [("3", some { timestamp := 2, command := "P2200" })] "refer:3 ok"
      { messageType := "refer:", messageId := some "3", rest := some "ok" }
      { timestamp := 2, command := "P2200" } (by decide) rfl (by decide),
   settlement_removal_reply_only.2
      [("4", some { timestamp := 1, command := "G1" })] "E4 20"
      { messageType := "E", messageId := some "4", rest := some "20" }
      { timestamp := 1, command := "G1" } (by decide) rfl (by decide)⟩

/-- C4: code-bug evaluation at the failing input. The error line "E9 42"
(both 9 and 42 absent from the error table) arriving while no PendingRequest
for id 9 exists makes `incoming` crash with a TypeError — the code
dereferences `waiter.callback` without checking the lookup — producing no
failure value and no `onError` notification, where the claim requires a
well-formed failure and no crash. -/
theorem incoming_error_no_waiter_typeError :
    incoming [] "E9 42" = { table := [], events := [], outcome := .thrown .typeError } ∧
    ERRORS "42" = none ∧ ERRORS "9" = none := by decide

/-- C5: counterexample. Sending "P2220" on a freshly constructed link (not
yet Ready): the caller receives no failure of any kind — the only effect of
the send is a console log, the write is silently dropped and nothing reaches
the transport — refuting the claim that a classified "not ready" failure
reaches the caller and that the line is never silently dropped. -/
theorem send_not_ready_silent_drop_concrete :
    (sendGCode initialUArmState "P2220" 0).2.2 = [.logged "send(): Not connected 😔"] ∧
    (sendGCode initialUArmState "P2220" 0).1.written = [] ∧
    ((sendGCode initialUArmState "P2220" 0).2.2.all fun e => !isFailureEvent e) = true ∧
    ((sendGCode initialUArmState "P2220" 0).2.2.all fun e => !isSettlement e) = true := by
  decide

/-- C5 (amended): for every send while the transport is not initialized, the
command line is never written to the transport and no failure is delivered
to the caller: the write is silently dropped, with a console log as its only
trace (the silent-drop reference behavior the spec design note flags). -/
theorem send_not_ready_silent_drop (st : UArmState) (g : String) (ts : Nat)
    (hInit : st.initialized = false) :
    (sendGCode st g ts).2.2 = [.logged "send(): Not connected 😔"] ∧
    (sendGCode st g ts).1.written = st.written ∧
    ((sendGCode st g ts).2.2.all fun e => !isFailureEvent e) = true := by
  simp [sendGCode, hInit, isFailureEvent]

/-- C5 (witness): the amended claim applied at a concrete not-ready state. -/
theorem send_not_ready_silent_drop_witness :
    (sendGCode (UArmState.mk 2 [] false []) "P2221" 3).2.2 =
      [.logged "send(): Not connected 😔"] ∧
    (sendGCode (UArmState.mk 2 [] false []) "P2221" 3).1.written = [] ∧
    ((sendGCode (UArmState.mk 2 [] false []) "P2221" 3).2.2.all
      fun e => !isFailureEvent e) = true :=
  send_not_ready_silent_drop (UArmState.mk 2 [] false []) "P2221" 3 rfl

/-- C6: for every inbound reply-marker line whose parsed id has a
PendingRequest, `incoming` settles exactly the PendingRequest keyed by that
id, resolving it with the payload text following the id, nulls that entry,
and leaves every other pending entry untouched — settlement is keyed purely
by the id parsed from the line, never by send order or arrival position. -/
theorem incoming_resolves_by_id (tbl : WaitTable) (data : String)
    (m : RegexMatch) (w : Waiter) (h : execIncoming data = some m)
    (hT : m.messageType = replyMark)
    (hW : tblGet tbl (undefStr m.messageId) = some w) :
    incoming tbl data =
      { table := tblSet tbl (undefStr m.messageId) none
        events := [.callbackInvoked (undefStr m.messageId) (.success m.rest)]
        outcome := .ok } ∧
    tblGet (incoming tbl data).table (undefStr m.messageId) = none ∧
    (∀ k, k ≠ undefStr m.messageId →
      tblGet (incoming tbl data).table k = tblGet tbl k) := by
  have h1 : incoming tbl data =
      { table := tblSet tbl (undefStr m.messageId) none
        events := [.callbackInvoked (undefStr m.messageId) (.success m.rest)]
        outcome := .ok } := by
    rw [incoming_eq_classify tbl data m h]
    exact classify_reply_some tbl m w hT hW
  refine ⟨h1, ?_, ?_⟩
  · rw [h1]
    exact tblGet_tblSet_self _ _ _
  · intro k hk
    rw [h1]
    exact tblGet_tblSet_ne _ _ _ _ hk

/-- C6 (witness): with PendingRequests 1 and 2 outstanding, the reply for
id 2 arrives first and settles PendingRequest 2 with its payload while
leaving PendingRequest 1 pending; the reply
"refer:1 ok X10.0000 Y20.0000 Z30.0000" then settles PendingRequest 1 with
payload "ok X10.0000 Y20.0000 Z30.0000" — no cross-settlement. -/
theorem incoming_resolves_by_id_witness :
    (incoming tblC6 "refer:2 ok first" =
      { table := tblSet tblC6 "2" none
        events := [.callbackInvoked "2" (.success (some "ok first"))]
        outcome := .ok } ∧
     tblGet (incoming tblC6 "refer:2 ok first").table "2" = none ∧
     (∀ k, k ≠ "2" →
       tblGet (incoming tblC6 "refer:2 ok first").table k = tblGet tblC6 k)) ∧
    (incoming (tblSet tblC6 "2" none) "refer:1 ok X10.0000 Y20.0000 Z30.0000" =
      { table := tblSet (tblSet tblC6 "2" none) "1" none
        events := [.callbackInvoked "1"
          (.success (some "ok X10.0000 Y20.0000 Z30.0000"))]
        outcome := .ok } ∧
     tblGet (incoming (tblSet tblC6 "2" none)
       "refer:1 ok X10.0000 Y20.0000 Z30.0000").table "1" = none ∧
     (∀ k, k ≠ "1" →
       tblGet (incoming (tblSet tblC6 "2" none)
         "refer:1 ok X10.0000 Y20.0000 Z30.0000").table k =
       tblGet (tblSet tblC6 "2" none) k)) :=
  ⟨incoming_resolves_by_id tblC6 "refer:2 ok first"
      { messageType := "refer:", messageId := some "2", rest := some "ok first" }
      { timestamp := 1, command := "P2200" } (by decide) rfl (by decide),
   incoming_resolves_by_id (tblSet tblC6 "2" none)
      "refer:1 ok X10.0000 Y20.0000 Z30.0000"
      { messageType := "refer:", messageId := some "1",
        rest := some "ok X10.0000 Y20.0000 Z30.0000" }
      { timestamp := 0, command := "P2220" } (by decide) rfl (by decide)⟩

/-- C7: for every sequence of link operations starting from the freshly
constructed state, the message ids allocated by the send calls are exactly
1, 2, 3, ... in send order — strictly increasing positive integers starting
at 1, with no gaps and no reuse for the lifetime of the link; inbound lines
interleaved between sends never disturb the counter. -/
theorem send_ids_sequential (rc : String) (ops : List LinkOp) :
    (runOps rc initialUArmState ops).2 = seqFrom 1 (countSends ops) :=
  runOps_ids ops rc initialUArmState

/-- C8: every inbound line received while the link is not initialized and
different from the readiness sentinel is discarded by the readiness gate:
the whole state (pending table included) is unchanged and the only event is
a boot-banner info log — in particular no `data` event is emitted, so the
line never reaches the `incoming` classifier, never settles any
PendingRequest and is never reported as an error. -/
theorem preReady_lines_discarded (rc : String) (st : UArmState) (line : String)
    (hInit : st.initialized = false) (hNe : line ≠ rc) :
    processRawLine rc st line = (st, [.logged ("ℹ️  " ++ line)], [], .ok) ∧
    dataLines [SerialEvent.logged ("ℹ️  " ++ line)] = [] := by
  obtain ⟨mid, tbl, ini, wr⟩ := st
  simp only at hInit
  subst hInit
  exact ⟨by simp [processRawLine, serialLineHandler, hNe, dataLines], rfl⟩

/-- C8 (witness): a well-formed reply line arriving before the sentinel on a
link with a pending request is dropped without settling it. -/
theorem preReady_lines_discarded_witness :
    processRawLine "@1"
      (UArmState.mk 2 [("1", some { timestamp := 5, command := "P2220" })] false [])
      "refer:1 ok" =
      (UArmState.mk 2 [("1", some { timestamp := 5, command := "P2220" })] false [],
       [.logged ("ℹ️  " ++ "refer:1 ok")], [], .ok) ∧
    dataLines [SerialEvent.logged ("ℹ️  " ++ "refer:1 ok")] = [] :=
  preReady_lines_discarded "@1"
    (UArmState.mk 2 [("1", some { timestamp := 5, command := "P2220" })] false [])
    "refer:1 ok" rfl (by decide)

/-- C9: counterexample. With the link already Ready, a second line equal to
the sentinel "@1" takes the readiness branch again — logging READY and
re-emitting the `ready` signal — and is not forwarded to the classifier (no
`data` event is emitted), refuting the claim that it is treated as an
ordinary status-tick line and not as a readiness re-trigger. -/
theorem sentinel_retrigger_concrete :
    processRawLine "@1" (UArmState.mk 3 [] true []) "@1" =
      (UArmState.mk 3 [] true [],
       [.logged "✅  UArm is READY.", .emittedReady], [], .ok) ∧
    dataLines [SerialEvent.logged "✅  UArm is READY.", SerialEvent.emittedReady] = [] ∧
    SerialEvent.emittedReady ∈
      [SerialEvent.logged "✅  UArm is READY.", SerialEvent.emittedReady] := by decide

/-- C9 (amended): after the link is Ready, any subsequent line equal to the
readiness sentinel takes the readiness branch again (the sentinel comparison
precedes the initialized check): the `ready` signal is re-emitted and the
line is not forwarded to the classifier; the sdk state is unchanged. -/
theorem sentinel_always_ready_branch (rc : String) (st : UArmState)
    (hInit : st.initialized = true) :
    processRawLine rc st rc =
      (st, [.logged "✅  UArm is READY.", .emittedReady], [], .ok) ∧
    dataLines [SerialEvent.logged "✅  UArm is READY.", SerialEvent.emittedReady] = [] := by
  obtain ⟨mid, tbl, ini, wr⟩ := st
  simp only at hInit
  subst hInit
  exact ⟨by simp [processRawLine, serialLineHandler, dataLines], rfl⟩

/-- C9 (amended, witness): the amended claim at a concrete Ready state. -/
theorem sentinel_always_ready_branch_witness :
    processRawLine "@1" (UArmState.mk 5 [("4", none)] true []) "@1" =
      (UArmState.mk 5 [("4", none)] true [],
       [.logged "✅  UArm is READY.", .emittedReady], [], .ok) ∧
    dataLines [SerialEvent.logged "✅  UArm is READY.", SerialEvent.emittedReady] = [] :=
  sentinel_always_ready_branch "@1" (UArmState.mk 5 [("4", none)] true []) rfl

/-- C10: a send while the transport is not initialized still increments the
id counter and still registers the PendingRequest under the new id exactly
as an initialized send would — identical counter and identical pending
table — while the write to the serial port is omitted and the call itself
settles nothing, so the entry stays pending with no command on the wire to
answer it. -/
theorem send_not_ready_frame_effect (st : UArmState) (g : String) (ts : Nat)
    (hInit : st.initialized = false) :
    (sendGCode st g ts).1.messageId = st.messageId + 1 ∧
    (sendGCode st g ts).1.waitingResponses =
      tblSet st.waitingResponses (Nat.repr st.messageId)
        (some { timestamp := ts, command := g }) ∧
    (sendGCode st g ts).2.1 = st.messageId ∧
    (sendGCode st g ts).1.written = st.written ∧
    (sendGCode { st with initialized := true } g ts).1.messageId =
      (sendGCode st g ts).1.messageId ∧
    (sendGCode { st with initialized := true } g ts).1.waitingResponses =
      (sendGCode st g ts).1.waitingResponses ∧
    ((sendGCode st g ts).2.2.all fun e => !isSettlement e) = true := by
  simp [sendGCode, hInit, isSettlement]

/-- C10 (witness): the frame effect at a concrete fresh state. -/
theorem send_not_ready_frame_effect_witness :
    (sendGCode (UArmState.mk 1 [] false []) "G0 X5" 7).1.messageId = 2 ∧
    (sendGCode (UArmState.mk 1 [] false []) "G0 X5" 7).1.waitingResponses =
      tblSet [] (Nat.repr 1) (some { timestamp := 7, command := "G0 X5" }) ∧
    (sendGCode (UArmState.mk 1 [] false []) "G0 X5" 7).2.1 = 1 ∧
    (sendGCode (UArmState.mk 1 [] false []) "G0 X5" 7).1.written = [] ∧
    (sendGCode (UArmState.mk 1 [] true []) "G0 X5" 7).1.messageId =
      (sendGCode (UArmState.mk 1 [] false []) "G0 X5" 7).1.messageId ∧
    (sendGCode (UArmState.mk 1 [] true []) "G0 X5" 7).1.waitingResponses =
      (sendGCode (UArmState.mk 1 [] false []) "G0 X5" 7).1.waitingResponses ∧
    ((sendGCode (UArmState.mk 1 [] false []) "G0 X5" 7).2.2.all
      fun e => !isSettlement e) = true :=
  send_not_ready_frame_effect (UArmState.mk 1 [] false []) "G0 X5" 7 rfl
